import Mathlib

/-!
# Menu store and menu validation (`pkg/abr-plus/model/menus.go`)

A shallow embedding of the data-access object `MenuModel` and of `ValidateMenu`.

* Go strings are Lean strings; `len(s)` is the UTF-8 byte count `String.utf8ByteSize`.
* `uint` and `int` values are only compared in this file, never combined
  arithmetically, so they are embedded as `Nat` and `Int`.
* `*sql.DB` is an explicit connection value: the state of the backing store together
  with the log of the statements sent so far.  What the store answers is given by a
  `Driver`; `tableDriver` is one particular driver, a table held in memory.
* A Go method `f(menu *Menu) error` becomes a function returning the connection after
  the call and either the error or the value of `*menu` after the call.
-/

namespace MenuStore

/-! ## Errors -/

/-- Go error values that occur in `menus.go`.  `wrapError msg err` is the value built by
`fmt.Errorf` with one `%w` verb: `msg` is the whole formatted text, `err` the wrapped error. -/
inductive Error where
  /-- Sentinel `ErrRecordNotFound` of package `model`. -/
  | ErrRecordNotFound : Error
  /-- Modelled from the spec: the EditConflict kind of its section 7; `menus.go` itself
  never builds a value of this kind. -/
  | ErrEditConflict : Error
  /-- Sentinel `sql.ErrNoRows`: `Row.Scan` when the query returned no row. -/
  | ErrNoRows : Error
  /-- Any other error reported by the store (I/O failure, decode failure, deadline exceeded). -/
  | store (text : String) : Error
  /-- Result of `fmt.Errorf` with a `%w` verb. -/
  | wrapError (msg : String) (err : Error) : Error
  deriving DecidableEq, Repr

/-- Modelled from the spec: the declarations of the error values are not in `menus.go`
(`ErrRecordNotFound` is declared elsewhere in package `model`, the edit-conflict kind is
named only by the specification), so the texts of these two are assumed.  Method
`Error()` of an error value; the text of `sql.ErrNoRows` is the library one. -/
def Error.Message : Error → String
  | .ErrRecordNotFound => "record not found"
  | .ErrEditConflict => "edit conflict"
  | .ErrNoRows => "sql: no rows in result set"
  | .store text => text
  | .wrapError msg _ => msg

/-- Go `errors.Is(err, target)`: `err` or some error in its `Unwrap` chain equals `target`. -/
def Error.Is : Error → Error → Bool
  | .wrapError msg err, target =>
      decide (Error.wrapError msg err = target) || Error.Is err target
  | e, target => decide (e = target)

/-! ## Data model -/

/-- Go `type Menu struct`. -/
structure Menu where
  Id : String
  CreatedAt : String
  UpdatedAt : String
  Title : String
  Description : String
  NutritionValue : Nat
  deriving DecidableEq, Repr

deriving instance DecidableEq for Except

/-- Go builtin `len` on a string: the number of bytes. -/
def len (s : String) : Nat := s.utf8ByteSize

/-! ## Validator (`pkg/abr-plus/validator`) -/

/-- Modelled from the spec: package `validator` is not among the sources.  The validator
holds the mapping from field name to message as a list of entries with distinct keys, in
the order the keys were first added. -/
structure Validator where
  Errors : List (String × String)
  deriving DecidableEq, Repr

/-- Modelled from the spec: package `validator` is not among the sources.  A validator with
an empty mapping. -/
def Validator.New : Validator := ⟨[]⟩

/-- Modelled from the spec: package `validator` is not among the sources.  `AddError`
records `message` under `key`.  The specification does not say what happens when the key is
already present, so that is a parameter: with `keepFirst` the existing entry stays, without
it the entry is replaced. -/
def Validator.AddError (keepFirst : Bool) (v : Validator) (key message : String) : Validator :=
  if v.Errors.any (fun e => e.1 == key) then
    if keepFirst then v
    else ⟨v.Errors.map (fun e => if e.1 == key then (key, message) else e)⟩
  else ⟨v.Errors ++ [(key, message)]⟩

/-- Modelled from the spec: package `validator` is not among the sources.  `Check` adds the
message under the key only when the condition is false. -/
def Validator.Check (keepFirst : Bool) (v : Validator) (ok : Bool) (key message : String) :
    Validator :=
  if ok then v else v.AddError keepFirst key message

/-- Keys of the mapping held by the validator. -/
def Validator.keys (v : Validator) : List String := v.Errors.map Prod.fst

/-- Message stored under a key, if any. -/
def Validator.get (v : Validator) (key : String) : Option String :=
  (v.Errors.find? (fun e => e.1 == key)).map Prod.snd

/-- Go `func ValidateMenu(v *validator.Validator, menu *Menu)`: the validator after the
four checks, in source order. -/
def ValidateMenu (keepFirst : Bool) (v : Validator) (menu : Menu) : Validator :=
  let v := v.Check keepFirst (menu.Title != "") "title" "must be provided"
  let v := v.Check keepFirst (decide (len menu.Title ≤ 100)) "title"
    "must not be more than 100 bytes long"
  let v := v.Check keepFirst (decide (len menu.Description ≤ 1000)) "description"
    "must not be more than 1000 bytes long"
  v.Check keepFirst (decide (menu.NutritionValue ≤ 10000)) "nutritionValue"
    "must not be more than 10000"

/-- Mapping a caller obtains for a menu: `ValidateMenu` run on a new validator. -/
def validated (keepFirst : Bool) (menu : Menu) : Validator :=
  ValidateMenu keepFirst Validator.New menu

/-! ## Backing store -/

/-- The five statements of `menus.go`, each with its positional arguments.

* `selectAll`: `SELECT id, created_at, updated_at, title, description, nutrition_value FROM menus`
* `insert`: `INSERT INTO menus (title, description, nutrition_value) VALUES ($1, $2, $3)
  RETURNING id, created_at, updated_at`
* `selectById`: the columns of `selectAll` with `WHERE id = $1`
* `update`: `UPDATE menus SET title = $1, description = $2, nutrition_value = $3,
  updated_at = CURRENT_TIMESTAMP WHERE id = $4 AND updated_at = $5 RETURNING updated_at`
* `delete`: `DELETE FROM menus WHERE id = $1` -/
inductive Stmt where
  | selectAll : Stmt
  | insert (title description : String) (nutritionValue : Nat) : Stmt
  | selectById (id : Int) : Stmt
  | update (title description : String) (nutritionValue : Nat) (id updatedAt : String) : Stmt
  | delete (id : Int) : Stmt
  deriving DecidableEq, Repr

/-- Go `*sql.Rows` as `GetAll` consumes it: for each row that `rows.Next()` delivers, in
order, what `rows.Scan` into the six fields of a `Menu` gives; and the value of `rows.Err()`
once `rows.Next()` has returned false. -/
structure Rows where
  scans : List (Except Error Menu)
  err : Option Error

/-- Answers of the backing store to the three `*sql.DB` methods used by `menus.go`, as a
transition on the state `σ` of the store.  The answer of `QueryRowContext` is what the
following `Scan` reports: an error (`sql.ErrNoRows` when the statement returned no row), or
the returned row, given by the columns of table `menus` converted to the types of the
`Menu` fields; `Scan` reads from it the columns the statement returns.  The answer of
`ExecContext` is an error or the number of rows affected. -/
structure Driver (σ : Type) where
  QueryContext : σ → Stmt → σ × Except Error Rows
  QueryRowContext : σ → Stmt → σ × Except Error Menu
  ExecContext : σ → Stmt → σ × Except Error Nat

/-- Connection to the backing store: the state of the store and the statements sent to it so
far, oldest first. -/
structure Conn (σ : Type) where
  store : σ
  log : List Stmt
  deriving DecidableEq

/-- Go `type MenuModel struct`; the two loggers are not used in `menus.go`. -/
structure MenuModel (σ : Type) where
  DB : Driver σ

/-- Call `m.DB.QueryContext(ctx, query)`: the statement is logged and answered by the store. -/
def MenuModel.QueryContext {σ : Type} (m : MenuModel σ) (c : Conn σ) (query : Stmt) :
    Conn σ × Except Error Rows :=
  let r := m.DB.QueryContext c.store query
  (⟨r.1, c.log ++ [query]⟩, r.2)

/-- Call `m.DB.QueryRowContext(ctx, query, args...)` followed by `Scan`. -/
def MenuModel.QueryRowContext {σ : Type} (m : MenuModel σ) (c : Conn σ) (query : Stmt) :
    Conn σ × Except Error Menu :=
  let r := m.DB.QueryRowContext c.store query
  (⟨r.1, c.log ++ [query]⟩, r.2)

/-- Call `m.DB.ExecContext(ctx, query, args...)`. -/
def MenuModel.ExecContext {σ : Type} (m : MenuModel σ) (c : Conn σ) (query : Stmt) :
    Conn σ × Except Error Nat :=
  let r := m.DB.ExecContext c.store query
  (⟨r.1, c.log ++ [query]⟩, r.2)

/-! ## Operations of `MenuModel` -/

/-- Loop `for rows.Next()` of `GetAll`: scan each delivered row, return at the first scan
error, otherwise append the menu. -/
def MenuModel.GetAll.loop : List (Except Error Menu) → List Menu → Except Error (List Menu)
  | [], menus => .ok menus
  | .error err :: _, _ => .error err
  | .ok menu :: rest, menus => MenuModel.GetAll.loop rest (menus ++ [menu])

/-- Go `func (m MenuModel) GetAll() ([]*Menu, error)`. -/
def MenuModel.GetAll {σ : Type} (m : MenuModel σ) (c : Conn σ) :
    Conn σ × Except Error (List Menu) :=
  let query := Stmt.selectAll
  match m.QueryContext c query with
  | (c, .error err) => (c, .error err)
  | (c, .ok rows) =>
    match MenuModel.GetAll.loop rows.scans [] with
    | .error err => (c, .error err)
    | .ok menus =>
      match rows.err with
      | some err => (c, .error err)
      | none => (c, .ok menus)

/-- Go `func (m MenuModel) Insert(menu *Menu) error`.  On a nil error the result holds
`*menu` after `Scan(&menu.Id, &menu.CreatedAt, &menu.UpdatedAt)`. -/
def MenuModel.Insert {σ : Type} (m : MenuModel σ) (c : Conn σ) (menu : Menu) :
    Conn σ × Except Error Menu :=
  let query := Stmt.insert menu.Title menu.Description menu.NutritionValue
  match m.QueryRowContext c query with
  | (c, .error err) => (c, .error err)
  | (c, .ok row) =>
    (c, .ok { menu with Id := row.Id, CreatedAt := row.CreatedAt, UpdatedAt := row.UpdatedAt })

/-- Go `fmt.Errorf("cannot retrive menu with id: %v, %w", id, err)`. -/
def errorfCannotRetrive (id : Int) (err : Error) : Error :=
  .wrapError ("cannot retrive menu with id: " ++ toString id ++ ", " ++ err.Message) err

/-- Go `func (m MenuModel) Get(id int) (*Menu, error)`. -/
def MenuModel.Get {σ : Type} (m : MenuModel σ) (c : Conn σ) (id : Int) :
    Conn σ × Except Error Menu :=
  if id < 1 then (c, .error .ErrRecordNotFound)
  else
    let query := Stmt.selectById id
    match m.QueryRowContext c query with
    | (c, .error err) => (c, .error (errorfCannotRetrive id err))
    | (c, .ok menu) => (c, .ok menu)

/-- Go `func (m MenuModel) Update(menu *Menu) error`.  On a nil error the result holds
`*menu` after `Scan(&menu.UpdatedAt)`. -/
def MenuModel.Update {σ : Type} (m : MenuModel σ) (c : Conn σ) (menu : Menu) :
    Conn σ × Except Error Menu :=
  let query := Stmt.update menu.Title menu.Description menu.NutritionValue menu.Id
    menu.UpdatedAt
  match m.QueryRowContext c query with
  | (c, .error err) => (c, .error err)
  | (c, .ok row) => (c, .ok { menu with UpdatedAt := row.UpdatedAt })

/-- Go `func (m MenuModel) Delete(id int) error`; `none` is the nil error. -/
def MenuModel.Delete {σ : Type} (m : MenuModel σ) (c : Conn σ) (id : Int) :
    Conn σ × Option Error :=
  if id < 1 then (c, some .ErrRecordNotFound)
  else
    let query := Stmt.delete id
    match m.ExecContext c query with
    | (c, .error err) => (c, some err)
    | (c, .ok _) => (c, none)

/-! ## A store held in memory -/

/-- Table `menus` held in memory: its rows in the order the store yields them (the columns
as `Scan` delivers them, the identifier in decimal text), the next value of the identifier
sequence, and the number of statements executed so far. -/
structure Table where
  rows : List Menu
  nextId : Nat
  tick : Nat
  deriving DecidableEq, Repr

/-- Rows an `update` statement selects: `WHERE id = $4 AND updated_at = $5`. -/
def Table.selects (id updatedAt : String) (r : Menu) : Bool :=
  r.Id == id && r.UpdatedAt == updatedAt

/-- Store that executes every statement on a `Table` and never fails; `clock n` is the
value of `CURRENT_TIMESTAMP` for the statement executed after `n` earlier ones.  A statement
sent through a method that `menus.go` does not use for it is answered by an error. -/
def tableDriver (clock : Nat → String) : Driver Table where
  QueryContext := fun t q =>
    match q with
    | .selectAll => ({ t with tick := t.tick + 1 }, .ok ⟨t.rows.map .ok, none⟩)
    | _ => (t, .error (.store "unsupported statement"))
  QueryRowContext := fun t q =>
    match q with
    | .insert title description nutritionValue =>
      let row : Menu :=
        ⟨toString t.nextId, clock t.tick, clock t.tick, title, description, nutritionValue⟩
      (⟨t.rows ++ [row], t.nextId + 1, t.tick + 1⟩, .ok row)
    | .selectById id =>
      ({ t with tick := t.tick + 1 },
        match t.rows.find? (fun r => r.Id == toString id) with
        | some row => .ok row
        | none => .error .ErrNoRows)
    | .update title description nutritionValue id updatedAt =>
      let rows := t.rows.map (fun r =>
        if Table.selects id updatedAt r then
          { r with Title := title, Description := description,
                   NutritionValue := nutritionValue, UpdatedAt := clock t.tick }
        else r)
      (⟨rows, t.nextId, t.tick + 1⟩,
        match t.rows.find? (Table.selects id updatedAt) with
        | some r =>
          .ok { r with Title := title, Description := description,
                       NutritionValue := nutritionValue, UpdatedAt := clock t.tick }
        | none => .error .ErrNoRows)
    | _ => (t, .error (.store "unsupported statement"))
  ExecContext := fun t q =>
    match q with
    | .delete id =>
      (⟨t.rows.filter (fun r => r.Id != toString id), t.nextId, t.tick + 1⟩,
        .ok (t.rows.countP (fun r => r.Id == toString id)))
    | _ => (t, .error (.store "unsupported statement"))

/-- The `MenuModel` whose store is the table in memory. -/
def tableModel (clock : Nat → String) : MenuModel Table := ⟨tableDriver clock⟩

/-- Store that answers a query for all rows with the given `Rows` and any other call with an
error. -/
def scriptedDriver (rows : Rows) : Driver Unit where
  QueryContext := fun _ q =>
    match q with
    | .selectAll => ((), .ok rows)
    | _ => ((), .error (.store "unsupported statement"))
  QueryRowContext := fun _ _ => ((), .error (.store "unsupported statement"))
  ExecContext := fun _ _ => ((), .error (.store "unsupported statement"))

/-! ## Example values -/

/-- Menu sent by the example updates: identifier 1, token `t0`. -/
def staleMenu : Menu := ⟨"1", "t0", "t0", "stew", "cold", 250⟩

/-- Menu with an empty title and a nutrition value above the bound. -/
def invalidMenu : Menu := ⟨"7", "c", "u", "", "x", 10001⟩


/-- Clock whose reading for the statement after `n` earlier ones is `t` followed by `n`. -/
def exampleClock : Nat → String := fun n => "t" ++ toString n

/-- Clock that never advances. -/
def frozenClock : Nat → String := fun _ => "t0"

/-- Connection to a table holding the single menu with identifier 1, written at `t0`. -/
def exampleConn : Conn Table :=
  ⟨⟨[⟨"1", "t0", "t0", "soup", "hot", 300⟩], 2, 1⟩, []⟩

/-- Title of 101 bytes. -/
def longTitle : String := String.mk (List.replicate 101 'a')

/-- Connection to an empty table. -/
def emptyConn : Conn Table := ⟨⟨[], 1, 0⟩, []⟩

/-! ## Validation -/

theorem len_empty : len "" = 0 := by decide

/-- Entries of the mapping `ValidateMenu` builds on a new validator, in closed form. -/
theorem validated_Errors (keepFirst : Bool) (m : Menu) :
    (validated keepFirst m).Errors =
      (if m.Title = "" then [("title", "must be provided")]
        else if 100 < len m.Title then [("title", "must not be more than 100 bytes long")]
        else []) ++
      (if 1000 < len m.Description then
        [("description", "must not be more than 1000 bytes long")] else []) ++
      (if 10000 < m.NutritionValue then
        [("nutritionValue", "must not be more than 10000")] else []) := by
  have e2 : (len m.Title ≤ 100) = ¬ (100 < len m.Title) := by simp
  have e3 : (len m.Description ≤ 1000) = ¬ (1000 < len m.Description) := by simp
  have e4 : (m.NutritionValue ≤ 10000) = ¬ (10000 < m.NutritionValue) := by simp
  by_cases h1 : m.Title = ""
  · by_cases h3 : 1000 < len m.Description <;> by_cases h4 : 10000 < m.NutritionValue <;>
      simp [validated, ValidateMenu, Validator.Check, Validator.AddError, Validator.New,
        e3, e4, h1, h3, h4, len_empty]
  · by_cases h2 : 100 < len m.Title <;> by_cases h3 : 1000 < len m.Description <;>
      by_cases h4 : 10000 < m.NutritionValue <;>
      simp [validated, ValidateMenu, Validator.Check, Validator.AddError, Validator.New,
        e2, e3, e4, h1, h2, h3, h4]

/-- Claim C6: from an empty validator the mapping of `ValidateMenu` has key `title` exactly
when the title is empty or longer than 100 bytes, key `description` exactly when the
description is longer than 1000 bytes, key `nutritionValue` exactly when the value exceeds
10000, and no other key (each key once); so it is empty exactly for a menu within all
bounds.  This holds for either treatment of a key that is already present. -/
theorem ValidateMenu_keys (keepFirst : Bool) (m : Menu) :
    ("title" ∈ (validated keepFirst m).keys ↔ (m.Title = "" ∨ 100 < len m.Title)) ∧
    ("description" ∈ (validated keepFirst m).keys ↔ 1000 < len m.Description) ∧
    ("nutritionValue" ∈ (validated keepFirst m).keys ↔ 10000 < m.NutritionValue) ∧
    (∀ k ∈ (validated keepFirst m).keys,
      k = "title" ∨ k = "description" ∨ k = "nutritionValue") ∧
    (validated keepFirst m).keys.Nodup ∧
    ((validated keepFirst m).Errors = [] ↔
      (m.Title ≠ "" ∧ len m.Title ≤ 100 ∧ len m.Description ≤ 1000 ∧
        m.NutritionValue ≤ 10000)) := by
  have hE := validated_Errors keepFirst m
  by_cases h1 : m.Title = ""
  · have h2 : ¬ 100 < len m.Title := by rw [h1, len_empty]; omega
    by_cases h3 : 1000 < len m.Description <;> by_cases h4 : 10000 < m.NutritionValue <;>
      simp [Validator.keys, hE, h1, h3, h4, len_empty]
  · by_cases h2 : 100 < len m.Title <;> by_cases h3 : 1000 < len m.Description <;>
      by_cases h4 : 10000 < m.NutritionValue <;>
      (simp [Validator.keys, hE, h1, h2, h3, h4]; try omega)

/-- Instance of C6: a menu within all bounds has an empty mapping; a menu with a title of
101 bytes and a nutrition value of 10001 has exactly the keys `title` and
`nutritionValue`. -/
theorem ValidateMenu_keys_witness :
    (validated true ⟨"", "", "", "ok", "ok", 10000⟩).Errors = [] ∧
    "title" ∈ (validated false ⟨"", "", "", longTitle, "ok", 10001⟩).keys ∧
    "nutritionValue" ∈ (validated false ⟨"", "", "", longTitle, "ok", 10001⟩).keys ∧
    ¬ "description" ∈ (validated false ⟨"", "", "", longTitle, "ok", 10001⟩).keys :=
  ⟨(ValidateMenu_keys true ⟨"", "", "", "ok", "ok", 10000⟩).2.2.2.2.2.mpr (by decide),
   (ValidateMenu_keys false ⟨"", "", "", longTitle, "ok", 10001⟩).1.mpr (by decide),
   (ValidateMenu_keys false ⟨"", "", "", longTitle, "ok", 10001⟩).2.2.1.mpr (by decide),
   fun h => absurd ((ValidateMenu_keys false ⟨"", "", "", longTitle, "ok", 10001⟩).2.1.mp h)
     (by decide)⟩

/-- Claim C7: from an empty validator, each of the four predicates that fails on the menu
has its own message in the mapping under its field name, and the number of entries equals
the number of failing predicates.  This holds for either treatment of a key that is already
present, because an empty title is not longer than 100 bytes. -/
theorem ValidateMenu_accumulates (keepFirst : Bool) (m : Menu) :
    (m.Title = "" → (validated keepFirst m).get "title" = some "must be provided") ∧
    (100 < len m.Title →
      (validated keepFirst m).get "title" = some "must not be more than 100 bytes long") ∧
    (1000 < len m.Description →
      (validated keepFirst m).get "description" =
        some "must not be more than 1000 bytes long") ∧
    (10000 < m.NutritionValue →
      (validated keepFirst m).get "nutritionValue" = some "must not be more than 10000") ∧
    (validated keepFirst m).Errors.length =
      (if m.Title = "" then 1 else 0) + (if 100 < len m.Title then 1 else 0) +
      (if 1000 < len m.Description then 1 else 0) +
      (if 10000 < m.NutritionValue then 1 else 0) := by
  have hE := validated_Errors keepFirst m
  by_cases h1 : m.Title = ""
  · have h2 : ¬ 100 < len m.Title := by rw [h1, len_empty]; omega
    by_cases h3 : 1000 < len m.Description <;> by_cases h4 : 10000 < m.NutritionValue <;>
      simp [Validator.get, hE, h1, h3, h4, len_empty]
  · by_cases h2 : 100 < len m.Title <;> by_cases h3 : 1000 < len m.Description <;>
      by_cases h4 : 10000 < m.NutritionValue <;>
      simp [Validator.get, hE, h1, h2, h3, h4]

/-- Instance of C7: a menu with an empty title and a nutrition value of 10001 gets both
messages. -/
theorem ValidateMenu_accumulates_witness :
    (validated true ⟨"", "", "", "", "x", 10001⟩).get "title" = some "must be provided" ∧
    (validated true ⟨"", "", "", "", "x", 10001⟩).get "nutritionValue" =
      some "must not be more than 10000" ∧
    (validated false ⟨"", "", "", longTitle, "x", 0⟩).get "title" =
      some "must not be more than 100 bytes long" :=
  ⟨(ValidateMenu_accumulates true ⟨"", "", "", "", "x", 10001⟩).1 rfl,
   (ValidateMenu_accumulates true ⟨"", "", "", "", "x", 10001⟩).2.2.2.1 (by decide),
   (ValidateMenu_accumulates false ⟨"", "", "", longTitle, "x", 0⟩).2.1 (by decide)⟩

/-! ## Get -/

theorem Error.Is_errorfCannotRetrive (id : Int) (err target : Error) :
    (errorfCannotRetrive id err).Is target =
      (decide (errorfCannotRetrive id err = target) || err.Is target) := by
  simp [errorfCannotRetrive, Error.Is]

/-- Claim C3: for an identifier below 1, `Get` returns no menu and exactly
`ErrRecordNotFound`, and the connection is untouched (no statement logged, store state
unchanged); for an identifier of at least 1 it sends exactly one statement, the select by
that identifier. -/
theorem Get_statements {σ : Type} (m : MenuModel σ) (c : Conn σ) (id : Int) :
    (id < 1 → m.Get c id = (c, .error .ErrRecordNotFound)) ∧
    (1 ≤ id → (m.Get c id).1.log = c.log ++ [Stmt.selectById id] ∧
      (m.Get c id).1.store = (m.DB.QueryRowContext c.store (Stmt.selectById id)).1) := by
  constructor
  · intro h
    simp [MenuModel.Get, h]
  · intro h
    have h1 : ¬ id < 1 := by omega
    cases hr : (m.DB.QueryRowContext c.store (Stmt.selectById id)).2 <;>
      simp [MenuModel.Get, MenuModel.QueryRowContext, h1, hr]

/-- Instance of C3 on the table in memory, for the identifiers 0, -1 and 1. -/
theorem Get_statements_witness :
    (tableModel exampleClock).Get exampleConn 0 = (exampleConn, .error .ErrRecordNotFound) ∧
    (tableModel exampleClock).Get exampleConn (-1) =
      (exampleConn, .error .ErrRecordNotFound) ∧
    ((tableModel exampleClock).Get exampleConn 1).1.log = [] ++ [Stmt.selectById 1] :=
  ⟨(Get_statements (tableModel exampleClock) exampleConn 0).1 (by decide),
   (Get_statements (tableModel exampleClock) exampleConn (-1)).1 (by decide),
   ((Get_statements (tableModel exampleClock) exampleConn 1).2 (by decide)).1⟩

/-- Counterexample to C2: the table holds no row with identifier 5, and `Get 5` returns an
error that wraps `sql.ErrNoRows`; `errors.Is` does not find `ErrRecordNotFound` in it. -/
theorem Get_absent_wraps_no_rows :
    (∀ r ∈ exampleConn.store.rows, r.Id ≠ "5") ∧
    ((tableModel exampleClock).Get exampleConn 5).2 =
      .error (.wrapError "cannot retrive menu with id: 5, sql: no rows in result set"
        .ErrNoRows) ∧
    Error.Is (.wrapError "cannot retrive menu with id: 5, sql: no rows in result set"
        .ErrNoRows) .ErrRecordNotFound = false := by
  refine ⟨by decide, by decide, by decide⟩

/-- Claim C2, amended: for an identifier of at least 1 whose select returns no row, `Get`
returns no menu and the error built by `fmt.Errorf` around `sql.ErrNoRows`: it is of the
no-rows kind, it is not of the `ErrRecordNotFound` kind, and its message carries the
identifier.  On the table in memory the select returns no row whenever no row has that
identifier. -/
theorem Get_missing_row {σ : Type} (m : MenuModel σ) (c : Conn σ) (id : Int) (hid : 1 ≤ id)
    (h : (m.DB.QueryRowContext c.store (Stmt.selectById id)).2 = .error .ErrNoRows) :
    (m.Get c id).2 = .error (errorfCannotRetrive id .ErrNoRows) ∧
    (errorfCannotRetrive id .ErrNoRows).Is .ErrNoRows = true ∧
    (errorfCannotRetrive id .ErrNoRows).Is .ErrRecordNotFound = false ∧
    (errorfCannotRetrive id .ErrNoRows).Message =
      "cannot retrive menu with id: " ++ toString id ++ ", sql: no rows in result set" ∧
    (∀ (clock : Nat → String) (t : Table), (∀ r ∈ t.rows, r.Id ≠ toString id) →
      ((tableDriver clock).QueryRowContext t (Stmt.selectById id)).2 = .error .ErrNoRows) := by
  have h1 : ¬ id < 1 := by omega
  refine ⟨?_, ?_, ?_, ?_, ?_⟩
  · simp [MenuModel.Get, MenuModel.QueryRowContext, h1, h]
  · simp [Error.Is_errorfCannotRetrive, Error.Is]
  · simp [Error.Is_errorfCannotRetrive, Error.Is, errorfCannotRetrive]
  · simp only [errorfCannotRetrive, Error.Message]
    rw [String.append_assoc]
    rfl
  · intro clock t ht
    have hf : t.rows.find? (fun r => r.Id == toString id) = none := by
      simp only [List.find?_eq_none]
      intro r hr
      simpa using ht r hr
    simp [tableDriver, hf]

/-- Instance of the amended C2: identifier 5 on the example table. -/
theorem Get_missing_row_witness :
    ((tableModel exampleClock).Get exampleConn 5).2 =
      .error (errorfCannotRetrive 5 .ErrNoRows) :=
  (Get_missing_row (tableModel exampleClock) exampleConn 5 (by decide) (by decide)).1

/-! ## Update -/

/-- Counterexample to C1: the row with identifier 1 was last written at `t0`; an `Update`
that carries the token `t9` matches no row, and fails with `sql.ErrNoRows` itself, which is
not of the edit-conflict kind. -/
theorem Update_unmatched_raw_error :
    ((tableDriver exampleClock).QueryRowContext exampleConn.store
      (Stmt.update "stew" "cold" 250 "1" "t9")).2 = .error .ErrNoRows ∧
    ((tableModel exampleClock).Update exampleConn ⟨"1", "t0", "t9", "stew", "cold", 250⟩).2 =
      .error .ErrNoRows ∧
    Error.Is .ErrNoRows .ErrEditConflict = false := by
  refine ⟨by decide, by decide, by decide⟩

/-- Claim C1, amended: `Update` returns whatever error the row scan reports, unchanged, for
every error and every store.  In particular, when the conditional update matches no row, so
that the scan reports `sql.ErrNoRows`, `Update` fails with that very error, which is not of
the edit-conflict kind. -/
theorem Update_zero_rows {σ : Type} (m : MenuModel σ) (c : Conn σ) (menu : Menu) (err : Error)
    (h : (m.DB.QueryRowContext c.store (Stmt.update menu.Title menu.Description
      menu.NutritionValue menu.Id menu.UpdatedAt)).2 = .error err) :
    (m.Update c menu).2 = .error err ∧
    (err = .ErrNoRows →
      (m.Update c menu).2 = .error .ErrNoRows ∧ err.Is .ErrEditConflict = false) := by
  have hu : (m.Update c menu).2 = .error err := by
    simp [MenuModel.Update, MenuModel.QueryRowContext, h]
  refine ⟨hu, ?_⟩
  intro he
  subst he
  exact ⟨hu, by decide⟩

/-- Instance of the amended C1: on the example table an update that matches no row fails
with `sql.ErrNoRows`; on a store that reports another error for the statement, `Update`
fails with that error. -/
theorem Update_zero_rows_witness :
    ((tableModel exampleClock).Update exampleConn ⟨"1", "t0", "t9", "stew", "cold", 250⟩).2 =
      .error .ErrNoRows ∧
    Error.Is .ErrNoRows .ErrEditConflict = false ∧
    ((⟨scriptedDriver ⟨[], none⟩⟩ : MenuModel Unit).Update ⟨(), []⟩ staleMenu).2 =
      .error (.store "unsupported statement") :=
  ⟨((Update_zero_rows (tableModel exampleClock) exampleConn
      ⟨"1", "t0", "t9", "stew", "cold", 250⟩ .ErrNoRows (by decide)).2 rfl).1,
   ((Update_zero_rows (tableModel exampleClock) exampleConn
      ⟨"1", "t0", "t9", "stew", "cold", 250⟩ .ErrNoRows (by decide)).2 rfl).2,
   (Update_zero_rows ⟨scriptedDriver ⟨[], none⟩⟩ ⟨(), []⟩ staleMenu
      (.store "unsupported statement") rfl).1⟩

theorem tableDriver_update_fst (clock : Nat → String) (t : Table) (title description : String)
    (nutritionValue : Nat) (id updatedAt : String) :
    ((tableDriver clock).QueryRowContext t
        (Stmt.update title description nutritionValue id updatedAt)).1 =
      ⟨t.rows.map (fun r =>
        if Table.selects id updatedAt r then
          { r with Title := title, Description := description,
                   NutritionValue := nutritionValue, UpdatedAt := clock t.tick }
        else r), t.nextId, t.tick + 1⟩ := rfl

theorem tableDriver_update_snd (clock : Nat → String) (t : Table) (title description : String)
    (nutritionValue : Nat) (id updatedAt : String) :
    ((tableDriver clock).QueryRowContext t
        (Stmt.update title description nutritionValue id updatedAt)).2 =
      match t.rows.find? (Table.selects id updatedAt) with
      | some r =>
        .ok { r with Title := title, Description := description,
                     NutritionValue := nutritionValue, UpdatedAt := clock t.tick }
      | none => .error .ErrNoRows := rfl

/-- No row carries the old token once an update has rewritten the rows that carried it with
a different time stamp. -/
theorem Table.selects_after_update (stamp : String) (title description : String)
    (nutritionValue : Nat) (id updatedAt : String) (h : stamp ≠ updatedAt) (r : Menu) :
    Table.selects id updatedAt
      (if Table.selects id updatedAt r then
          { r with Title := title, Description := description,
                   NutritionValue := nutritionValue, UpdatedAt := stamp }
        else r) = false := by
  by_cases hs : Table.selects id updatedAt r = true
  · rw [if_pos hs]
    simp [Table.selects, h]
  · rw [if_neg hs]
    simpa using hs

theorem Update_fst (clock : Nat → String) (c : Conn Table) (menu : Menu) :
    ((tableModel clock).Update c menu).1 =
      ⟨((tableDriver clock).QueryRowContext c.store (Stmt.update menu.Title menu.Description
          menu.NutritionValue menu.Id menu.UpdatedAt)).1,
        c.log ++ [Stmt.update menu.Title menu.Description menu.NutritionValue menu.Id
          menu.UpdatedAt]⟩ := by
  cases hr : ((tableDriver clock).QueryRowContext c.store (Stmt.update menu.Title
      menu.Description menu.NutritionValue menu.Id menu.UpdatedAt)).2 <;>
    simp [MenuModel.Update, MenuModel.QueryRowContext, tableModel, hr]

theorem Update_snd (clock : Nat → String) (c : Conn Table) (menu : Menu) :
    ((tableModel clock).Update c menu).2 =
      match c.store.rows.find? (Table.selects menu.Id menu.UpdatedAt) with
      | some _ => .ok { menu with UpdatedAt := clock c.store.tick }
      | none => .error .ErrNoRows := by
  have h2 := tableDriver_update_snd clock c.store menu.Title menu.Description
    menu.NutritionValue menu.Id menu.UpdatedAt
  cases hf : c.store.rows.find? (Table.selects menu.Id menu.UpdatedAt) <;>
    simp [MenuModel.Update, MenuModel.QueryRowContext, tableModel, h2, hf]

/-- Counterexample to C8: two updates of the row with identifier 1, both carrying the token
`t0`.  With a clock that advances, the first succeeds and the second fails with
`sql.ErrNoRows`, which is not of the edit-conflict kind.  With a clock that stands still
the first succeeds and so does the second. -/
theorem Update_repeat_not_conflict :
    ((tableModel exampleClock).Update exampleConn staleMenu).2 =
      .ok ⟨"1", "t0", "t1", "stew", "cold", 250⟩ ∧
    ((tableModel exampleClock).Update
      ((tableModel exampleClock).Update exampleConn staleMenu).1 staleMenu).2 =
      .error .ErrNoRows ∧
    Error.Is .ErrNoRows .ErrEditConflict = false ∧
    ((tableModel frozenClock).Update exampleConn staleMenu).2 = .ok staleMenu ∧
    ((tableModel frozenClock).Update
      ((tableModel frozenClock).Update exampleConn staleMenu).1 staleMenu).2 =
      .ok staleMenu := by
  refine ⟨by decide, by decide, by decide, by decide, by decide⟩

/-- Claim C8, amended: two updates of the same record carry the same stale token, with no
statement in between, on the table in memory.  If the first succeeds and the time stamp the
store gave it differs from the stale token, then the second fails with `sql.ErrNoRows`
(which is not of the edit-conflict kind) and leaves the rows as the first wrote them: the
record holds the fields of the first update and the time stamp returned to it. -/
theorem Update_stale_twice (clock : Nat → String) (c : Conn Table)
    (first second written : Menu)
    (hid : second.Id = first.Id) (hts : second.UpdatedAt = first.UpdatedAt)
    (h1 : ((tableModel clock).Update c first).2 = .ok written)
    (hclk : clock c.store.tick ≠ first.UpdatedAt) :
    ((tableModel clock).Update ((tableModel clock).Update c first).1 second).2 =
      .error .ErrNoRows ∧
    Error.Is .ErrNoRows .ErrEditConflict = false ∧
    ((tableModel clock).Update ((tableModel clock).Update c first).1 second).1.store.rows =
      ((tableModel clock).Update c first).1.store.rows ∧
    written = { first with UpdatedAt := clock c.store.tick } ∧
    (∃ r ∈ ((tableModel clock).Update ((tableModel clock).Update c first).1 second).1.store.rows,
      r.Id = first.Id ∧ r.UpdatedAt = written.UpdatedAt ∧ r.Title = first.Title ∧
      r.Description = first.Description ∧ r.NutritionValue = first.NutritionValue) := by
  have hsel := Table.selects_after_update (clock c.store.tick) first.Title first.Description
    first.NutritionValue first.Id first.UpdatedAt hclk
  have hnone : ((tableModel clock).Update c first).1.store.rows.find?
      (Table.selects second.Id second.UpdatedAt) = none := by
    rw [Update_fst, tableDriver_update_fst, hid, hts]
    simp only [List.find?_eq_none, List.mem_map]
    rintro r ⟨r0, -, rfl⟩
    simp [hsel r0]
  have hrows : ((tableModel clock).Update ((tableModel clock).Update c first).1 second).1.store.rows
      = ((tableModel clock).Update c first).1.store.rows := by
    rw [Update_fst clock ((tableModel clock).Update c first).1 second, tableDriver_update_fst]
    simp only
    conv_rhs => rw [← List.map_id ((tableModel clock).Update c first).1.store.rows]
    apply List.map_congr_left
    intro r hr
    have : Table.selects second.Id second.UpdatedAt r = false := by
      have := List.find?_eq_none.mp hnone r hr
      simpa using this
    simp [this]
  rw [Update_snd] at h1
  cases hf : c.store.rows.find? (Table.selects first.Id first.UpdatedAt) with
  | none => simp [hf] at h1
  | some r0 =>
    simp only [hf, Except.ok.injEq] at h1
    refine ⟨?_, by decide, hrows, h1.symm, ?_⟩
    · rw [Update_snd, hnone]
    · rw [hrows, Update_fst, tableDriver_update_fst]
      have hmem : r0 ∈ c.store.rows := List.mem_of_find?_eq_some hf
      have hs0 : Table.selects first.Id first.UpdatedAt r0 = true :=
        List.find?_some hf
      refine ⟨_, List.mem_map.mpr ⟨r0, hmem, rfl⟩, ?_⟩
      have hi : r0.Id = first.Id := by
        simp [Table.selects] at hs0
        exact hs0.1
      simp [hs0, hi, ← h1]

/-- Instance of the amended C8: the example table, whose clock advances. -/
theorem Update_stale_twice_witness :
    ((tableModel exampleClock).Update
      ((tableModel exampleClock).Update exampleConn staleMenu).1 staleMenu).2 =
      .error .ErrNoRows :=
  (Update_stale_twice exampleClock exampleConn staleMenu staleMenu
    ⟨"1", "t0", "t1", "stew", "cold", 250⟩ rfl rfl (by decide) (by decide)).1

/-! ## Delete -/

/-- Claim C4: for an identifier below 1, `Delete` returns exactly `ErrRecordNotFound` and
the connection is untouched: no statement is logged and the state of the store, with the
records it holds, is the one before the call. -/
theorem Delete_below_one {σ : Type} (m : MenuModel σ) (c : Conn σ) (id : Int) (h : id < 1) :
    m.Delete c id = (c, some .ErrRecordNotFound) ∧
    (m.Delete c id).1.log = c.log ∧
    (m.Delete c id).1.store = c.store := by
  simp [MenuModel.Delete, h]

/-- Instance of C4: identifier 0 on the example table. -/
theorem Delete_below_one_witness :
    (tableModel exampleClock).Delete exampleConn 0 =
      (exampleConn, some .ErrRecordNotFound) :=
  (Delete_below_one (tableModel exampleClock) exampleConn 0 (by decide)).1

theorem Delete_table (clock : Nat → String) (c : Conn Table) (id : Int) (h : 1 ≤ id) :
    (tableModel clock).Delete c id =
      (⟨⟨c.store.rows.filter (fun r => r.Id != toString id), c.store.nextId,
          c.store.tick + 1⟩, c.log ++ [Stmt.delete id]⟩, none) := by
  have h1 : ¬ id < 1 := by omega
  simp [MenuModel.Delete, MenuModel.ExecContext, tableModel, tableDriver, h1]

/-- Claim C5: for an identifier of at least 1, `Delete` returns an error exactly when
executing the statement reports one, and then that error; when the statement executes,
whatever the number of rows affected (zero included), `Delete` returns no error.  On the
table in memory a `Delete` succeeds, the same statement then affects zero rows, and a second
`Delete` of the same identifier succeeds too and leaves the rows as they were. -/
theorem Delete_error_iff {σ : Type} (m : MenuModel σ) (c : Conn σ) (id : Int) (h : 1 ≤ id) :
    (∀ err, (m.Delete c id).2 = some err ↔
      (m.DB.ExecContext c.store (Stmt.delete id)).2 = .error err) ∧
    (∀ n, (m.DB.ExecContext c.store (Stmt.delete id)).2 = .ok n → (m.Delete c id).2 = none) ∧
    (∀ (clock : Nat → String) (t : Conn Table),
      ((tableModel clock).Delete t id).2 = none ∧
      ((tableDriver clock).ExecContext ((tableModel clock).Delete t id).1.store
        (Stmt.delete id)).2 = .ok 0 ∧
      ((tableModel clock).Delete ((tableModel clock).Delete t id).1 id).2 = none ∧
      ((tableModel clock).Delete ((tableModel clock).Delete t id).1 id).1.store.rows =
        ((tableModel clock).Delete t id).1.store.rows) := by
  have h1 : ¬ id < 1 := by omega
  refine ⟨?_, ?_, ?_⟩
  · intro err
    cases hr : (m.DB.ExecContext c.store (Stmt.delete id)).2 <;>
      simp [MenuModel.Delete, MenuModel.ExecContext, h1, hr]
  · intro n hn
    simp [MenuModel.Delete, MenuModel.ExecContext, h1, hn]
  · intro clock t
    simp only [Delete_table clock _ id h]
    refine ⟨trivial, ?_, trivial, ?_⟩
    · simp [tableDriver, List.countP_eq_zero]
    · simp [List.filter_filter]

/-- Instance of C5: deleting identifier 1 from the example table twice. -/
theorem Delete_error_iff_witness :
    ((tableModel exampleClock).Delete exampleConn 1).2 = none ∧
    ((tableModel exampleClock).Delete
      ((tableModel exampleClock).Delete exampleConn 1).1 1).2 = none :=
  ⟨((Delete_error_iff (tableModel exampleClock) exampleConn 1 (by decide)).2.2
      exampleClock exampleConn).1,
   ((Delete_error_iff (tableModel exampleClock) exampleConn 1 (by decide)).2.2
      exampleClock exampleConn).2.2.1⟩

/-! ## Insert -/

/-- Claim C9: `Insert` sends the insert statement built from the title, the description and
the nutrition value alone, so the identifier and the two time stamps of the menu passed in
do not influence the call; on success these three fields hold the values the store returned
and the other three are unchanged; and the statement is sent whatever `ValidateMenu` says
about the menu. -/
theorem Insert_frame {σ : Type} (m : MenuModel σ) (c : Conn σ) (menu : Menu) :
    (m.Insert c menu).1.log =
      c.log ++ [Stmt.insert menu.Title menu.Description menu.NutritionValue] ∧
    (m.Insert c menu).1.store = (m.DB.QueryRowContext c.store
      (Stmt.insert menu.Title menu.Description menu.NutritionValue)).1 ∧
    (∀ id createdAt updatedAt : String,
      m.Insert c { menu with Id := id, CreatedAt := createdAt, UpdatedAt := updatedAt } =
        m.Insert c menu) ∧
    (∀ row, (m.DB.QueryRowContext c.store
        (Stmt.insert menu.Title menu.Description menu.NutritionValue)).2 = .ok row →
      (m.Insert c menu).2 = .ok ⟨row.Id, row.CreatedAt, row.UpdatedAt, menu.Title,
        menu.Description, menu.NutritionValue⟩) ∧
    (∀ keepFirst, (validated keepFirst menu).Errors ≠ [] →
      Stmt.insert menu.Title menu.Description menu.NutritionValue ∈ (m.Insert c menu).1.log ∧
      ((m.Insert c menu).2 = (m.DB.QueryRowContext c.store
        (Stmt.insert menu.Title menu.Description menu.NutritionValue)).2.map
          (fun row => ⟨row.Id, row.CreatedAt, row.UpdatedAt, menu.Title,
            menu.Description, menu.NutritionValue⟩))) := by
  cases hr : (m.DB.QueryRowContext c.store
      (Stmt.insert menu.Title menu.Description menu.NutritionValue)).2 <;>
    simp [MenuModel.Insert, MenuModel.QueryRowContext, hr, Except.map]

/-- Instance of C9: a menu that `ValidateMenu` rejects (empty title, nutrition value 10001)
is sent to the store and stored by the table in memory. -/
theorem Insert_frame_witness :
    (validated true invalidMenu).Errors ≠ [] ∧
    Stmt.insert "" "x" 10001 ∈ ((tableModel exampleClock).Insert emptyConn invalidMenu).1.log ∧
    ((tableModel exampleClock).Insert emptyConn invalidMenu).2 =
      .ok ⟨"1", "t0", "t0", "", "x", 10001⟩ :=
  ⟨by decide,
   ((Insert_frame (tableModel exampleClock) emptyConn invalidMenu).2.2.2.2 true
      (by decide)).1,
   (Insert_frame (tableModel exampleClock) emptyConn invalidMenu).2.2.2.1
      ⟨"1", "t0", "t0", "", "x", 10001⟩ (by decide)⟩

/-! ## GetAll -/

theorem MenuModel.GetAll.loop_ok (menus : List Menu) (rest : List (Except Error Menu))
    (acc : List Menu) :
    MenuModel.GetAll.loop (menus.map .ok ++ rest) acc =
      MenuModel.GetAll.loop rest (acc ++ menus) := by
  induction menus generalizing acc with
  | nil => simp
  | cons a l ih => simp [MenuModel.GetAll.loop, ih]

/-- Claim C10: when the query succeeds, `GetAll` returns the empty sequence and no error if
the store yields no rows; one menu per row, in the order yielded, if every scan and the
iteration succeed; the error of the first failing scan, and no sequence, if a scan fails;
and the error of the iteration, and no sequence, if the iteration fails. -/
theorem GetAll_result {σ : Type} (m : MenuModel σ) (c : Conn σ) (rows : Rows)
    (h : (m.DB.QueryContext c.store Stmt.selectAll).2 = .ok rows) :
    (rows.scans = [] → rows.err = none → (m.GetAll c).2 = .ok []) ∧
    (∀ menus : List Menu, rows.scans = menus.map .ok → rows.err = none →
      (m.GetAll c).2 = .ok menus) ∧
    (∀ (menus : List Menu) err rest, rows.scans = menus.map .ok ++ .error err :: rest →
      (m.GetAll c).2 = .error err) ∧
    (∀ (menus : List Menu) err, rows.scans = menus.map .ok → rows.err = some err →
      (m.GetAll c).2 = .error err) := by
  have key : (m.GetAll c).2 =
      match MenuModel.GetAll.loop rows.scans [] with
      | .error err => .error err
      | .ok menus =>
        match rows.err with
        | some err => .error err
        | none => .ok menus := by
    simp only [MenuModel.GetAll, MenuModel.QueryContext, h]
    cases MenuModel.GetAll.loop rows.scans [] with
    | error e => rfl
    | ok l => cases rows.err <;> rfl
  have hall : ∀ menus : List Menu,
      MenuModel.GetAll.loop (menus.map .ok) [] = .ok menus := by
    intro menus
    have := MenuModel.GetAll.loop_ok menus [] []
    simpa [MenuModel.GetAll.loop] using this
  refine ⟨?_, ?_, ?_, ?_⟩
  · intro hs he
    rw [key, hs, he]
    rfl
  · intro menus hs he
    rw [key, hs, he, hall]
  · intro menus err rest hs
    rw [key, hs, MenuModel.GetAll.loop_ok]
    rfl
  · intro menus err hs he
    rw [key, hs, he, hall]

/-- Instance of C10: the empty table, the example table, and a store whose second row fails
to scan. -/
theorem GetAll_result_witness :
    ((tableModel exampleClock).GetAll emptyConn).2 = .ok [] ∧
    ((tableModel exampleClock).GetAll exampleConn).2 =
      .ok [⟨"1", "t0", "t0", "soup", "hot", 300⟩] ∧
    ((⟨scriptedDriver ⟨[.ok staleMenu, .error (.store "bad column"), .ok invalidMenu], none⟩⟩ :
        MenuModel Unit).GetAll ⟨(), []⟩).2 = .error (.store "bad column") :=
  ⟨(GetAll_result (tableModel exampleClock) emptyConn ⟨[], none⟩ rfl).1 rfl rfl,
   (GetAll_result (tableModel exampleClock) exampleConn
      ⟨[.ok ⟨"1", "t0", "t0", "soup", "hot", 300⟩], none⟩ rfl).2.1
      [⟨"1", "t0", "t0", "soup", "hot", 300⟩] rfl rfl,
   (GetAll_result ⟨scriptedDriver
      ⟨[.ok staleMenu, .error (.store "bad column"), .ok invalidMenu], none⟩⟩ ⟨(), []⟩
      ⟨[.ok staleMenu, .error (.store "bad column"), .ok invalidMenu], none⟩ rfl).2.2.1
      [staleMenu] (.store "bad column") [.ok invalidMenu] rfl⟩

end MenuStore
